import Mathlib

/-
Verification development for the sumo-robot controller
(src/sumo_bot/SumoBotCode.ino).

The controller is a single-threaded Arduino control loop.  We embed it
shallowly: the mutable globals become the record `Ctx`, one call of
`loop()` becomes the pure function `loopStep` taking the tick's sensor
inputs (`TickInput`) and returning the updated context together with the
list of motor commands written during that tick.  Times are modelled as
`Nat` milliseconds (the C code uses `unsigned long`; all properties below
concern ticks at or after the recorded timestamps, where the modular and
the natural subtraction agree).  Distances are `Int` centimeters, as in
the source (`int`).  `readUltrasonic` takes the distance value obtained
from the echo duration (the hardware conversion `duration * 0.0343 / 2`;
a timed-out pulse yields duration 0 and hence distance 0) and applies the
source's validation.
-/

namespace SumoBot

-- Configuration constants from the source header.
@[simp] def SPEED_MAX : Int := 255
@[simp] def SPEED_SEARCH : Int := 180
@[simp] def SPEED_ATTACK : Int := 200
@[simp] def SPEED_PUSH : Int := 255
@[simp] def SPEED_ARC_INNER : Int := 153
@[simp] def SPEED_ARC_OUTER : Int := 230
@[simp] def SPEED_CLOSE_INNER : Int := 165
@[simp] def SPEED_CLOSE_OUTER : Int := 204

@[simp] def OPENING_SPIN_TIME : Nat := 500
@[simp] def OPENING_CHARGE_TIME : Nat := 800
@[simp] def BORDER_REVERSE_TIME : Nat := 300
@[simp] def BORDER_TURN_TIME : Nat := 400
@[simp] def BORDER_REV_SIDE : Nat := 200
@[simp] def BORDER_TURN_SIDE : Nat := 300
@[simp] def BORDER_REV_BACK : Nat := 300
@[simp] def BORDER_TURN_BACK : Nat := 300

@[simp] def ENEMY_CLOSE : Int := 30
@[simp] def ENEMY_MEDIUM : Int := 80
@[simp] def ENEMY_FAR : Int := 150
@[simp] def ENEMY_LOST : Int := 50
@[simp] def ENEMY_MIN : Int := 10

@[simp] def IR_THRESHOLD : Nat := 512
@[simp] def DEADLOCK_TIME : Nat := 2000
@[simp] def ULTRA_INTERVAL : Nat := 50
@[simp] def ULTRA_SIDE_INTERVAL : Nat := 200

/-- The `enum State` of the source. -/
inductive State where
  | INIT
  | OPENING_MOVE
  | SEARCH
  | ATTACK
  | PUSH
  | BORDER_ESCAPE
deriving DecidableEq, Repr

/-- One `setMotors` call: the four values written by `analogWrite` to the
two forward and two backward PWM channels. -/
structure MotorCmd where
  leftFwd : Int
  leftBack : Int
  rightFwd : Int
  rightBack : Int
deriving DecidableEq, Repr

/-- `setMotors(leftSpeed, rightSpeed)`: per wheel, a positive speed drives
the forward channel, a negative one the backward channel with the negated
magnitude, zero stops both channels.  No clamping appears in the source. -/
def setMotors (leftSpeed rightSpeed : Int) : MotorCmd :=
  { leftFwd := if 0 < leftSpeed then leftSpeed else 0
    leftBack := if leftSpeed < 0 then -leftSpeed else 0
    rightFwd := if 0 < rightSpeed then rightSpeed else 0
    rightBack := if rightSpeed < 0 then -rightSpeed else 0 }

def stopMotors : MotorCmd := setMotors 0 0

def moveForward (speed : Int) : MotorCmd := setMotors speed speed

def moveBackward (speed : Int) : MotorCmd := setMotors (-speed) (-speed)

def rotateClockwise (speed : Int) : MotorCmd := setMotors speed (-speed)

def rotateCounterClockwise (speed : Int) : MotorCmd := setMotors (-speed) speed

/-- The mutable globals of the sketch. -/
structure Ctx where
  currentState : State
  borderFrontRight : Bool
  borderFrontLeft : Bool
  borderRight : Bool
  borderLeft : Bool
  borderBack : Bool
  borderDetected : Bool
  distanceFront : Int
  distanceLeft : Int
  distanceRight : Int
  stateStartTime : Nat
  lastUltraFront : Nat
  lastUltraSide : Nat
  pushStartTime : Nat
  lastEnemyDistance : Int
  enemyDetected : Bool
  enemyDirection : Int
deriving DecidableEq, Repr

/-- The raw sensor values available to one tick of `loop()`: the clock,
the five analog IR readings, and the distance value each ultrasonic
measurement would produce (before validation). -/
structure TickInput where
  now : Nat
  irFrontRight : Nat
  irFrontLeft : Nat
  irRight : Nat
  irLeft : Nat
  irBack : Nat
  ultraFront : Int
  ultraLeft : Int
  ultraRight : Int
deriving DecidableEq, Repr

/-- Validation step of `readUltrasonic`: a distance below 2 cm or above
400 cm is replaced by the sentinel 999. -/
def readUltrasonic (distance : Int) : Int :=
  if distance < 2 ∨ 400 < distance then 999 else distance

/-- `readAllIRSensors`: threshold the five analog values and recompute the
aggregate `borderDetected`. -/
def readAllIRSensors (c : Ctx) (inp : TickInput) : Ctx :=
  let fr := decide (IR_THRESHOLD < inp.irFrontRight)
  let fl := decide (IR_THRESHOLD < inp.irFrontLeft)
  let r := decide (IR_THRESHOLD < inp.irRight)
  let l := decide (IR_THRESHOLD < inp.irLeft)
  let b := decide (IR_THRESHOLD < inp.irBack)
  { c with
    borderFrontRight := fr
    borderFrontLeft := fl
    borderRight := r
    borderLeft := l
    borderBack := b
    borderDetected := fr || fl || r || l || b }

/-- `updateEnemyStatus`: recompute `enemyDetected` and `enemyDirection`
from the stored distances.  Note the source has no final `else`: when no
sensor is in range, `enemyDirection` keeps its previous value. -/
def updateEnemyStatus (c : Ctx) : Ctx :=
  let frontEnemy := decide (ENEMY_MIN ≤ c.distanceFront ∧ c.distanceFront ≤ ENEMY_FAR)
  let leftEnemy := decide (ENEMY_MIN ≤ c.distanceLeft ∧ c.distanceLeft ≤ ENEMY_FAR)
  let rightEnemy := decide (ENEMY_MIN ≤ c.distanceRight ∧ c.distanceRight ≤ ENEMY_FAR)
  { c with
    enemyDetected := frontEnemy || leftEnemy || rightEnemy
    enemyDirection :=
      if frontEnemy then 0
      else if leftEnemy && !rightEnemy then -1
      else if rightEnemy && !leftEnemy then 1
      else if leftEnemy && rightEnemy then
        (if c.distanceLeft < c.distanceRight then -1 else 1)
      else c.enemyDirection }

/-- The staggered distance-store part of `readUltrasonicSensors`. -/
def storeUltra (c : Ctx) (inp : TickInput) : Ctx :=
  let c1 :=
    if ULTRA_INTERVAL ≤ inp.now - c.lastUltraFront then
      { c with distanceFront := readUltrasonic inp.ultraFront, lastUltraFront := inp.now }
    else c
  if ULTRA_SIDE_INTERVAL ≤ inp.now - c1.lastUltraSide then
    { c1 with
      distanceLeft := readUltrasonic inp.ultraLeft
      distanceRight := readUltrasonic inp.ultraRight
      lastUltraSide := inp.now }
  else c1

/-- `readUltrasonicSensors`: staggered reads, then `updateEnemyStatus`. -/
def readUltrasonicSensors (c : Ctx) (inp : TickInput) : Ctx :=
  updateEnemyStatus (storeUltra c inp)

/-- `executeOpeningMove`. -/
def executeOpeningMove (c : Ctx) (now : Nat) : Ctx × List MotorCmd :=
  let elapsed := now - c.stateStartTime
  if elapsed < OPENING_SPIN_TIME then
    (c, [rotateClockwise SPEED_MAX])
  else if elapsed < OPENING_SPIN_TIME + OPENING_CHARGE_TIME then
    (c, [moveForward SPEED_MAX])
  else
    ({ c with currentState := State.SEARCH, stateStartTime := now }, [])

/-- `executeSearch`.  The lateral branch issues a rotation command (the
source then busy-waits 200 ms) and transitions to ATTACK in the same
tick. -/
def executeSearch (c : Ctx) (now : Nat) : Ctx × List MotorCmd :=
  if c.enemyDetected then
    if c.enemyDirection = 0 then
      ({ c with currentState := State.ATTACK, stateStartTime := now }, [])
    else
      ({ c with currentState := State.ATTACK, stateStartTime := now },
       [if c.enemyDirection = -1 then rotateCounterClockwise SPEED_SEARCH
        else rotateClockwise SPEED_SEARCH])
  else
    (c, [rotateClockwise SPEED_SEARCH])

/-- `executeAttack`. -/
def executeAttack (c : Ctx) (now : Nat) : Ctx × List MotorCmd :=
  if (c.enemyDetected = false ∨ ENEMY_LOST < c.distanceFront) ∧
      1000 < now - c.stateStartTime then
    ({ c with currentState := State.SEARCH, stateStartTime := now }, [])
  else if c.distanceFront ≤ ENEMY_CLOSE then
    ({ c with currentState := State.PUSH, stateStartTime := now, pushStartTime := now }, [])
  else if ENEMY_MEDIUM < c.distanceFront then
    (c, [setMotors SPEED_ARC_INNER SPEED_ARC_OUTER])
  else
    (c, [setMotors SPEED_CLOSE_INNER SPEED_CLOSE_OUTER])

/-- `executePush`.  In the deadlock branch `lastEnemyDistance` is not
updated (the source returns before the assignment). -/
def executePush (c : Ctx) (now : Nat) : Ctx × List MotorCmd :=
  if DEADLOCK_TIME < now - c.pushStartTime ∧
      (c.distanceFront - c.lastEnemyDistance).natAbs < 5 then
    ({ c with currentState := State.ATTACK, stateStartTime := now },
     [moveBackward SPEED_MAX, rotateClockwise SPEED_MAX])
  else
    let c1 := { c with lastEnemyDistance := c.distanceFront }
    if c1.enemyDetected = false ∨ ENEMY_LOST < c1.distanceFront then
      ({ c1 with currentState := State.SEARCH, stateStartTime := now }, [])
    else
      (c1, [moveForward SPEED_PUSH])

/-- `executeBorderEscape`.  The front-zone tie-break re-reads the two
front analog IR values of the same tick. -/
def executeBorderEscape (c : Ctx) (now : Nat) (inp : TickInput) : Ctx × List MotorCmd :=
  let elapsed := now - c.stateStartTime
  let frontBorder := c.borderFrontRight || c.borderFrontLeft
  let sideBorder := c.borderRight || c.borderLeft
  let backBorder := c.borderBack
  if frontBorder then
    if elapsed < BORDER_REVERSE_TIME then
      (c, [moveBackward SPEED_MAX])
    else if elapsed < BORDER_REVERSE_TIME + BORDER_TURN_TIME then
      (c, [if c.borderFrontRight && !c.borderFrontLeft then rotateCounterClockwise SPEED_MAX
           else if c.borderFrontLeft && !c.borderFrontRight then rotateClockwise SPEED_MAX
           else if inp.irFrontLeft < inp.irFrontRight then rotateCounterClockwise SPEED_MAX
           else rotateClockwise SPEED_MAX])
    else if c.borderDetected = false then
      ({ c with currentState := State.SEARCH, stateStartTime := now }, [])
    else
      ({ c with stateStartTime := now - BORDER_REVERSE_TIME }, [])
  else if sideBorder then
    if elapsed < BORDER_REV_SIDE then
      (c, [moveBackward SPEED_MAX])
    else if elapsed < BORDER_REV_SIDE + BORDER_TURN_SIDE then
      (c, [if c.borderLeft then rotateClockwise SPEED_MAX
           else rotateCounterClockwise SPEED_MAX])
    else if c.borderDetected = false then
      ({ c with currentState := State.SEARCH, stateStartTime := now }, [])
    else
      ({ c with stateStartTime := now - BORDER_REV_SIDE }, [])
  else if backBorder then
    if elapsed < BORDER_REV_BACK then
      (c, [moveForward SPEED_MAX])
    else if elapsed < BORDER_REV_BACK + BORDER_TURN_BACK then
      (c, [rotateClockwise SPEED_MAX])
    else if c.borderDetected = false then
      ({ c with currentState := State.SEARCH, stateStartTime := now }, [])
    else
      ({ c with stateStartTime := now - BORDER_REV_BACK }, [])
  else
    (c, [])

/-- Priority rule of `loop()` (lines 194-198): any border flag forces an
immediate transition to BORDER_ESCAPE, recording the entry time. -/
def borderPriority (c : Ctx) (now : Nat) : Ctx :=
  if c.borderDetected = true ∧ c.currentState ≠ State.BORDER_ESCAPE then
    { c with currentState := State.BORDER_ESCAPE, stateStartTime := now }
  else c

/-- The `switch(currentState)` dispatch of `loop()`. -/
def execState (c : Ctx) (inp : TickInput) : Ctx × List MotorCmd :=
  match c.currentState with
  | State.INIT => (c, [])
  | State.OPENING_MOVE => executeOpeningMove c inp.now
  | State.SEARCH => executeSearch c inp.now
  | State.ATTACK => executeAttack c inp.now
  | State.PUSH => executePush c inp.now
  | State.BORDER_ESCAPE => executeBorderEscape c inp.now inp

/-- One full tick of `loop()`: read IR sensors, apply the border priority
rule, read the staggered ultrasonic sensors, then run the current state's
handler.  Returns the new context and the motor commands of the tick. -/
def loopStep (c : Ctx) (inp : TickInput) : Ctx × List MotorCmd :=
  execState (readUltrasonicSensors (borderPriority (readAllIRSensors c inp) inp.now) inp) inp

/-- Run a sequence of ticks, keeping only the context. -/
def run (c : Ctx) : List TickInput → Ctx
  | [] => c
  | i :: is => run (loopStep c i).1 is

/-- The concatenated motor-command trace of a sequence of ticks. -/
def runCmds (c : Ctx) : List TickInput → List MotorCmd
  | [] => []
  | i :: is => (loopStep c i).2 ++ runCmds (loopStep c i).1 is

/-- No analog IR value crosses the border threshold this tick. -/
def noBorder (inp : TickInput) : Prop :=
  inp.irFrontRight ≤ IR_THRESHOLD ∧ inp.irFrontLeft ≤ IR_THRESHOLD ∧
  inp.irRight ≤ IR_THRESHOLD ∧ inp.irLeft ≤ IR_THRESHOLD ∧ inp.irBack ≤ IR_THRESHOLD

instance (inp : TickInput) : Decidable (noBorder inp) := by
  unfold noBorder
  infer_instance

/-- A context in a given state at a given time, with all sensors quiet:
used to build concrete scenarios. -/
def mkCtx (s : State) (start : Nat) : Ctx :=
  { currentState := s
    borderFrontRight := false
    borderFrontLeft := false
    borderRight := false
    borderLeft := false
    borderBack := false
    borderDetected := false
    distanceFront := 999
    distanceLeft := 999
    distanceRight := 999
    stateStartTime := start
    lastUltraFront := start
    lastUltraSide := start
    pushStartTime := start
    lastEnemyDistance := 999
    enemyDetected := false
    enemyDirection := 0 }

/-- A tick input with quiet IR sensors and out-of-range flank echoes. -/
def mkInput (now : Nat) (front : Int) : TickInput :=
  { now := now
    irFrontRight := 100
    irFrontLeft := 100
    irRight := 100
    irLeft := 100
    irBack := 100
    ultraFront := front
    ultraLeft := 999
    ultraRight := 999 }

-- ============================================================
-- Helper lemmas about the embedding
-- ============================================================

@[simp] lemma readAllIRSensors_currentState (c : Ctx) (inp : TickInput) :
    (readAllIRSensors c inp).currentState = c.currentState := rfl

@[simp] lemma readAllIRSensors_stateStartTime (c : Ctx) (inp : TickInput) :
    (readAllIRSensors c inp).stateStartTime = c.stateStartTime := rfl

@[simp] lemma readAllIRSensors_pushStartTime (c : Ctx) (inp : TickInput) :
    (readAllIRSensors c inp).pushStartTime = c.pushStartTime := rfl

@[simp] lemma readAllIRSensors_lastEnemyDistance (c : Ctx) (inp : TickInput) :
    (readAllIRSensors c inp).lastEnemyDistance = c.lastEnemyDistance := rfl

@[simp] lemma readAllIRSensors_distanceFront (c : Ctx) (inp : TickInput) :
    (readAllIRSensors c inp).distanceFront = c.distanceFront := rfl

@[simp] lemma readAllIRSensors_lastUltraFront (c : Ctx) (inp : TickInput) :
    (readAllIRSensors c inp).lastUltraFront = c.lastUltraFront := rfl

@[simp] lemma readAllIRSensors_lastUltraSide (c : Ctx) (inp : TickInput) :
    (readAllIRSensors c inp).lastUltraSide = c.lastUltraSide := rfl

lemma readAllIRSensors_consistent (c : Ctx) (inp : TickInput) :
    (readAllIRSensors c inp).borderDetected =
      ((readAllIRSensors c inp).borderFrontRight || (readAllIRSensors c inp).borderFrontLeft ||
       (readAllIRSensors c inp).borderRight || (readAllIRSensors c inp).borderLeft ||
       (readAllIRSensors c inp).borderBack) := rfl

lemma readAllIRSensors_borderDetected_false (c : Ctx) (inp : TickInput)
    (h : noBorder inp) : (readAllIRSensors c inp).borderDetected = false := by
  obtain ⟨h1, h2, h3, h4, h5⟩ := h
  simp only [IR_THRESHOLD] at h1 h2 h3 h4 h5
  simp only [readAllIRSensors, IR_THRESHOLD, Bool.or_eq_false_iff,
    decide_eq_false_iff_not, not_lt]
  exact ⟨⟨⟨⟨h1, h2⟩, h3⟩, h4⟩, h5⟩

lemma readAllIRSensors_flags_false (c : Ctx) (inp : TickInput) (h : noBorder inp) :
    (readAllIRSensors c inp).borderFrontRight = false ∧
    (readAllIRSensors c inp).borderFrontLeft = false ∧
    (readAllIRSensors c inp).borderRight = false ∧
    (readAllIRSensors c inp).borderLeft = false ∧
    (readAllIRSensors c inp).borderBack = false := by
  obtain ⟨h1, h2, h3, h4, h5⟩ := h
  simp only [IR_THRESHOLD] at h1 h2 h3 h4 h5
  simp only [readAllIRSensors, IR_THRESHOLD, decide_eq_false_iff_not, not_lt]
  exact ⟨h1, h2, h3, h4, h5⟩

lemma borderPriority_of_clear (c : Ctx) (now : Nat) (h : c.borderDetected = false) :
    borderPriority c now = c := by
  unfold borderPriority
  rw [if_neg]
  simp [h]

lemma borderPriority_of_escape (c : Ctx) (now : Nat)
    (h : c.currentState = State.BORDER_ESCAPE) : borderPriority c now = c := by
  unfold borderPriority
  rw [if_neg]
  simp [h]

lemma borderPriority_fires (c : Ctx) (now : Nat) (h1 : c.borderDetected = true)
    (h2 : c.currentState ≠ State.BORDER_ESCAPE) :
    borderPriority c now =
      { c with currentState := State.BORDER_ESCAPE, stateStartTime := now } := by
  unfold borderPriority
  rw [if_pos ⟨h1, h2⟩]

@[simp] lemma storeUltra_currentState (c : Ctx) (inp : TickInput) :
    (storeUltra c inp).currentState = c.currentState := by
  unfold storeUltra
  dsimp only
  split_ifs <;> rfl

@[simp] lemma storeUltra_stateStartTime (c : Ctx) (inp : TickInput) :
    (storeUltra c inp).stateStartTime = c.stateStartTime := by
  unfold storeUltra
  dsimp only
  split_ifs <;> rfl

@[simp] lemma storeUltra_pushStartTime (c : Ctx) (inp : TickInput) :
    (storeUltra c inp).pushStartTime = c.pushStartTime := by
  unfold storeUltra
  dsimp only
  split_ifs <;> rfl

@[simp] lemma storeUltra_lastEnemyDistance (c : Ctx) (inp : TickInput) :
    (storeUltra c inp).lastEnemyDistance = c.lastEnemyDistance := by
  unfold storeUltra
  dsimp only
  split_ifs <;> rfl

@[simp] lemma storeUltra_borderFrontRight (c : Ctx) (inp : TickInput) :
    (storeUltra c inp).borderFrontRight = c.borderFrontRight := by
  unfold storeUltra
  dsimp only
  split_ifs <;> rfl

@[simp] lemma storeUltra_borderFrontLeft (c : Ctx) (inp : TickInput) :
    (storeUltra c inp).borderFrontLeft = c.borderFrontLeft := by
  unfold storeUltra
  dsimp only
  split_ifs <;> rfl

@[simp] lemma storeUltra_borderRight (c : Ctx) (inp : TickInput) :
    (storeUltra c inp).borderRight = c.borderRight := by
  unfold storeUltra
  dsimp only
  split_ifs <;> rfl

@[simp] lemma storeUltra_borderLeft (c : Ctx) (inp : TickInput) :
    (storeUltra c inp).borderLeft = c.borderLeft := by
  unfold storeUltra
  dsimp only
  split_ifs <;> rfl

@[simp] lemma storeUltra_borderBack (c : Ctx) (inp : TickInput) :
    (storeUltra c inp).borderBack = c.borderBack := by
  unfold storeUltra
  dsimp only
  split_ifs <;> rfl

@[simp] lemma storeUltra_borderDetected (c : Ctx) (inp : TickInput) :
    (storeUltra c inp).borderDetected = c.borderDetected := by
  unfold storeUltra
  dsimp only
  split_ifs <;> rfl

lemma storeUltra_distanceFront (c : Ctx) (inp : TickInput) :
    (storeUltra c inp).distanceFront =
      (if ULTRA_INTERVAL ≤ inp.now - c.lastUltraFront then readUltrasonic inp.ultraFront
       else c.distanceFront) := by
  unfold storeUltra
  dsimp only
  split_ifs <;> rfl

@[simp] lemma updateEnemyStatus_currentState (c : Ctx) :
    (updateEnemyStatus c).currentState = c.currentState := rfl

@[simp] lemma updateEnemyStatus_stateStartTime (c : Ctx) :
    (updateEnemyStatus c).stateStartTime = c.stateStartTime := rfl

@[simp] lemma updateEnemyStatus_pushStartTime (c : Ctx) :
    (updateEnemyStatus c).pushStartTime = c.pushStartTime := rfl

@[simp] lemma updateEnemyStatus_lastEnemyDistance (c : Ctx) :
    (updateEnemyStatus c).lastEnemyDistance = c.lastEnemyDistance := rfl

@[simp] lemma updateEnemyStatus_distanceFront (c : Ctx) :
    (updateEnemyStatus c).distanceFront = c.distanceFront := rfl

@[simp] lemma updateEnemyStatus_borderFrontRight (c : Ctx) :
    (updateEnemyStatus c).borderFrontRight = c.borderFrontRight := rfl

@[simp] lemma updateEnemyStatus_borderFrontLeft (c : Ctx) :
    (updateEnemyStatus c).borderFrontLeft = c.borderFrontLeft := rfl

@[simp] lemma updateEnemyStatus_borderRight (c : Ctx) :
    (updateEnemyStatus c).borderRight = c.borderRight := rfl

@[simp] lemma updateEnemyStatus_borderLeft (c : Ctx) :
    (updateEnemyStatus c).borderLeft = c.borderLeft := rfl

@[simp] lemma updateEnemyStatus_borderBack (c : Ctx) :
    (updateEnemyStatus c).borderBack = c.borderBack := rfl

@[simp] lemma updateEnemyStatus_borderDetected (c : Ctx) :
    (updateEnemyStatus c).borderDetected = c.borderDetected := rfl

lemma updateEnemyStatus_detected_of_front (c : Ctx)
    (h1 : ENEMY_MIN ≤ c.distanceFront) (h2 : c.distanceFront ≤ ENEMY_FAR) :
    (updateEnemyStatus c).enemyDetected = true := by
  unfold updateEnemyStatus
  simp only [Bool.or_eq_true, decide_eq_true_eq]
  exact Or.inl (Or.inl ⟨h1, h2⟩)

lemma execState_of_search (c : Ctx) (inp : TickInput)
    (h : c.currentState = State.SEARCH) : execState c inp = executeSearch c inp.now := by
  unfold execState
  split <;> simp_all

lemma execState_of_attack (c : Ctx) (inp : TickInput)
    (h : c.currentState = State.ATTACK) : execState c inp = executeAttack c inp.now := by
  unfold execState
  split <;> simp_all

lemma execState_of_push (c : Ctx) (inp : TickInput)
    (h : c.currentState = State.PUSH) : execState c inp = executePush c inp.now := by
  unfold execState
  split <;> simp_all

lemma execState_of_escape (c : Ctx) (inp : TickInput)
    (h : c.currentState = State.BORDER_ESCAPE) :
    execState c inp = executeBorderEscape c inp.now inp := by
  unfold execState
  split <;> simp_all

set_option maxRecDepth 4000 in
lemma executeBorderEscape_phase1 (c : Ctx) (now : Nat) (inp : TickInput)
    (h : now - c.stateStartTime < BORDER_REV_SIDE) :
    (executeBorderEscape c now inp).1 = c := by
  simp only [BORDER_REV_SIDE] at h
  unfold executeBorderEscape
  dsimp only
  simp only [BORDER_REVERSE_TIME, BORDER_TURN_TIME, BORDER_REV_SIDE, BORDER_TURN_SIDE,
    BORDER_REV_BACK, BORDER_TURN_BACK]
  split_ifs <;> first | rfl | (exfalso; omega)

set_option maxRecDepth 4000 in
set_option maxHeartbeats 1000000 in
lemma executeBorderEscape_clear (c : Ctx) (now : Nat) (inp : TickInput)
    (h1 : c.borderFrontRight = false) (h2 : c.borderFrontLeft = false)
    (h3 : c.borderRight = false) (h4 : c.borderLeft = false)
    (h5 : c.borderBack = false) :
    executeBorderEscape c now inp = (c, []) := by
  unfold executeBorderEscape
  dsimp only
  simp [h1, h2, h3, h4, h5]

set_option maxRecDepth 4000 in
set_option maxHeartbeats 1000000 in
lemma executeBorderEscape_preserves_state (c : Ctx) (now : Nat) (inp : TickInput)
    (hcons : c.borderDetected =
      (c.borderFrontRight || c.borderFrontLeft || c.borderRight || c.borderLeft ||
       c.borderBack)) :
    (executeBorderEscape c now inp).1.currentState = c.currentState := by
  unfold executeBorderEscape
  dsimp only
  split_ifs <;> simp_all

-- ============================================================
-- Claim theorems
-- ============================================================

/-- C1: On every control-loop tick, if any of the five border flags is true
after the border sensors are read and the current state is not BorderEscape,
then the state after the evaluation is BorderEscape and the state-entry
timestamp is set to the current tick time, regardless of any concurrent
enemy-detection signals or the state's own logic. -/
theorem border_priority_invariant (c : Ctx) (inp : TickInput)
    (hb : IR_THRESHOLD < inp.irFrontRight ∨ IR_THRESHOLD < inp.irFrontLeft ∨
      IR_THRESHOLD < inp.irRight ∨ IR_THRESHOLD < inp.irLeft ∨
      IR_THRESHOLD < inp.irBack)
    (hs : c.currentState ≠ State.BORDER_ESCAPE) :
    (loopStep c inp).1.currentState = State.BORDER_ESCAPE ∧
    (loopStep c inp).1.stateStartTime = inp.now := by
  have hbd : (readAllIRSensors c inp).borderDetected = true := by
    unfold readAllIRSensors
    dsimp only
    simp only [Bool.or_eq_true, decide_eq_true_eq]
    tauto
  have hfires := borderPriority_fires (readAllIRSensors c inp) inp.now hbd
    (by simpa using hs)
  unfold loopStep readUltrasonicSensors
  rw [hfires]
  set cu : Ctx := updateEnemyStatus (storeUltra
    { readAllIRSensors c inp with
      currentState := State.BORDER_ESCAPE, stateStartTime := inp.now } inp) with hcu
  have hst : cu.currentState = State.BORDER_ESCAPE := by simp [hcu]
  have hss : cu.stateStartTime = inp.now := by simp [hcu]
  rw [execState_of_escape cu inp hst]
  rw [executeBorderEscape_phase1 cu inp.now inp (by rw [hss]; simp)]
  exact ⟨hst, hss⟩

/-- C1 witness: a Search-state tick whose back IR sensor reads above the
threshold enters BorderEscape and records the tick time. -/
theorem border_priority_invariant_witness :
    (loopStep (mkCtx State.SEARCH 10000)
      { mkInput 10050 999 with irBack := 600 }).1.currentState = State.BORDER_ESCAPE ∧
    (loopStep (mkCtx State.SEARCH 10000)
      { mkInput 10050 999 with irBack := 600 }).1.stateStartTime = 10050 :=
  border_priority_invariant (mkCtx State.SEARCH 10000)
    { mkInput 10050 999 with irBack := 600 } (by decide) (by decide)

/-- C2 (code defect): once the controller is in BorderEscape it can never
leave it.  The clearance check of `executeBorderEscape` tests
`!borderDetected` inside branches that each require a border flag to be
set, and the flags and `borderDetected` are recomputed consistently at the
start of every tick, so the check is always false; on a tick whose sensors
all read clear no branch runs at all.  Hence the state after any
BorderEscape tick is still BorderEscape, contradicting the documented
"all IR sensors clear, return to Search" exit. -/
theorem borderEscape_absorbing (c : Ctx) (inp : TickInput)
    (hstate : c.currentState = State.BORDER_ESCAPE) :
    (loopStep c inp).1.currentState = State.BORDER_ESCAPE := by
  unfold loopStep readUltrasonicSensors
  rw [borderPriority_of_escape _ _ (by simpa using hstate)]
  set cu : Ctx := updateEnemyStatus (storeUltra (readAllIRSensors c inp) inp) with hcu
  have hst : cu.currentState = State.BORDER_ESCAPE := by simp [hcu, hstate]
  have hcons : cu.borderDetected =
      (cu.borderFrontRight || cu.borderFrontLeft || cu.borderRight ||
       cu.borderLeft || cu.borderBack) := by
    simp only [hcu, updateEnemyStatus_borderDetected, storeUltra_borderDetected,
      updateEnemyStatus_borderFrontRight, storeUltra_borderFrontRight,
      updateEnemyStatus_borderFrontLeft, storeUltra_borderFrontLeft,
      updateEnemyStatus_borderRight, storeUltra_borderRight,
      updateEnemyStatus_borderLeft, storeUltra_borderLeft,
      updateEnemyStatus_borderBack, storeUltra_borderBack]
    exact readAllIRSensors_consistent c inp
  rw [execState_of_escape cu inp hst]
  rw [executeBorderEscape_preserves_state cu inp.now inp hcons]
  exact hst

/-- C2 witness: a BorderEscape tick at 800 ms after entry with every border
sensor reading clear still ends in BorderEscape (the documented return to
Search never happens). -/
theorem borderEscape_absorbing_witness :
    (loopStep (mkCtx State.BORDER_ESCAPE 10000)
      (mkInput 10800 999)).1.currentState = State.BORDER_ESCAPE :=
  borderEscape_absorbing (mkCtx State.BORDER_ESCAPE 10000) (mkInput 10800 999) rfl

/-- C3 (code defect): when the front measurement is due and the measured
distance is implausible (below 2 cm, e.g. an echo timeout, or above
400 cm), the stored front distance is overwritten with the sentinel 999 —
it does not retain the prior valid reading as the documentation and spec
require. -/
theorem invalid_read_overwrites (c : Ctx) (inp : TickInput)
    (hdue : ULTRA_INTERVAL ≤ inp.now - c.lastUltraFront)
    (hinv : inp.ultraFront < 2 ∨ 400 < inp.ultraFront) :
    (readUltrasonicSensors c inp).distanceFront = 999 := by
  unfold readUltrasonicSensors
  rw [updateEnemyStatus_distanceFront, storeUltra_distanceFront, if_pos hdue]
  unfold readUltrasonic
  rw [if_pos hinv]

/-- C3 witness: a stored front distance of 50 cm is replaced by 999 when an
out-of-range 500 cm measurement arrives. -/
theorem invalid_read_overwrites_witness :
    (readUltrasonicSensors { mkCtx State.SEARCH 10000 with distanceFront := 50 }
      (mkInput 10060 500)).distanceFront = 999 :=
  invalid_read_overwrites { mkCtx State.SEARCH 10000 with distanceFront := 50 }
    (mkInput 10060 500) (by decide) (by decide)

/-- C10: on a BorderEscape tick whose five border sensors all read clear,
the escape handler issues no drive command and performs no transition: the
state stays BorderEscape, the entry timestamp is unchanged and the tick's
command list is empty, regardless of how much time has elapsed. -/
theorem escape_clear_tick_inert (c : Ctx) (inp : TickInput)
    (hstate : c.currentState = State.BORDER_ESCAPE) (hnb : noBorder inp) :
    (loopStep c inp).1.currentState = State.BORDER_ESCAPE ∧
    (loopStep c inp).1.stateStartTime = c.stateStartTime ∧
    (loopStep c inp).2 = [] := by
  obtain ⟨f1, f2, f3, f4, f5⟩ := readAllIRSensors_flags_false c inp hnb
  unfold loopStep readUltrasonicSensors
  rw [borderPriority_of_clear _ _ (readAllIRSensors_borderDetected_false c inp hnb)]
  set cu : Ctx := updateEnemyStatus (storeUltra (readAllIRSensors c inp) inp) with hcu
  have hst : cu.currentState = State.BORDER_ESCAPE := by simp [hcu, hstate]
  have hss : cu.stateStartTime = c.stateStartTime := by simp [hcu]
  rw [execState_of_escape cu inp hst]
  rw [executeBorderEscape_clear cu inp.now inp (by simp [hcu, f1]) (by simp [hcu, f2])
    (by simp [hcu, f3]) (by simp [hcu, f4]) (by simp [hcu, f5])]
  exact ⟨hst, hss, rfl⟩

/-- C10 witness: five seconds into a BorderEscape whose sensors read clear,
the tick leaves the state, the entry timestamp and the motor output
untouched. -/
theorem escape_clear_tick_inert_witness :
    (loopStep (mkCtx State.BORDER_ESCAPE 10000)
      (mkInput 15000 999)).1.currentState = State.BORDER_ESCAPE ∧
    (loopStep (mkCtx State.BORDER_ESCAPE 10000)
      (mkInput 15000 999)).1.stateStartTime =
        (mkCtx State.BORDER_ESCAPE 10000).stateStartTime ∧
    (loopStep (mkCtx State.BORDER_ESCAPE 10000) (mkInput 15000 999)).2 = [] :=
  escape_clear_tick_inert (mkCtx State.BORDER_ESCAPE 10000) (mkInput 15000 999)
    rfl (by decide)

/-- C8 counterexample: two contexts with identical current distance
readings (999/999/999, nothing in range) but different previous
`enemyDirection` values yield different computed directions — the direction
is persisted, not recomputed purely from the current tick's readings. -/
theorem enemy_direction_stale_counterexample :
    (updateEnemyStatus { mkCtx State.SEARCH 0 with enemyDirection := -1 }).enemyDirection
      = -1 ∧
    (updateEnemyStatus { mkCtx State.SEARCH 0 with enemyDirection := 1 }).enemyDirection
      = 1 ∧
    ({ mkCtx State.SEARCH 0 with enemyDirection := -1 } : Ctx).distanceFront =
      ({ mkCtx State.SEARCH 0 with enemyDirection := 1 } : Ctx).distanceFront ∧
    ({ mkCtx State.SEARCH 0 with enemyDirection := -1 } : Ctx).distanceLeft =
      ({ mkCtx State.SEARCH 0 with enemyDirection := 1 } : Ctx).distanceLeft ∧
    ({ mkCtx State.SEARCH 0 with enemyDirection := -1 } : Ctx).distanceRight =
      ({ mkCtx State.SEARCH 0 with enemyDirection := 1 } : Ctx).distanceRight := by
  decide

/-- C8 (amended): the `present` flag is always a pure function of the
current three distance readings, and whenever some sensor detects a target
(`present` is true) the computed direction is too; only when nothing is in
range does `enemyDirection` retain its previous value. -/
theorem enemy_estimate_pure_when_present (c1 c2 : Ctx)
    (hf : c1.distanceFront = c2.distanceFront)
    (hl : c1.distanceLeft = c2.distanceLeft)
    (hr : c1.distanceRight = c2.distanceRight) :
    (updateEnemyStatus c1).enemyDetected = (updateEnemyStatus c2).enemyDetected ∧
    ((updateEnemyStatus c1).enemyDetected = true →
      (updateEnemyStatus c1).enemyDirection = (updateEnemyStatus c2).enemyDirection) := by
  unfold updateEnemyStatus
  dsimp only
  rw [hf, hl, hr]
  refine ⟨rfl, ?_⟩
  intro h
  split_ifs <;> first | rfl | (exfalso; simp_all; try omega)

/-- C8 witness: with a front target at 42 cm the estimate is computed
identically from equal readings, whatever direction was stored before. -/
theorem enemy_estimate_pure_when_present_witness :
    (updateEnemyStatus { mkCtx State.SEARCH 0 with distanceFront := 42 }).enemyDetected =
      (updateEnemyStatus
        { mkCtx State.SEARCH 0 with distanceFront := 42, enemyDirection := 1 }).enemyDetected ∧
    ((updateEnemyStatus { mkCtx State.SEARCH 0 with distanceFront := 42 }).enemyDetected = true →
      (updateEnemyStatus { mkCtx State.SEARCH 0 with distanceFront := 42 }).enemyDirection =
      (updateEnemyStatus
        { mkCtx State.SEARCH 0 with distanceFront := 42, enemyDirection := 1 }).enemyDirection) :=
  enemy_estimate_pure_when_present
    { mkCtx State.SEARCH 0 with distanceFront := 42 }
    { mkCtx State.SEARCH 0 with distanceFront := 42, enemyDirection := 1 }
    rfl rfl rfl

/-- C9: when both flank readings are in the valid detection band and the
front reading is not, the computed direction is the nearer flank: left
(-1) when `distanceLeft < distanceRight`, otherwise right (1). -/
theorem flank_tiebreak_nearer (c : Ctx)
    (hlmin : ENEMY_MIN ≤ c.distanceLeft) (hlmax : c.distanceLeft ≤ ENEMY_FAR)
    (hrmin : ENEMY_MIN ≤ c.distanceRight) (hrmax : c.distanceRight ≤ ENEMY_FAR)
    (hf : ¬(ENEMY_MIN ≤ c.distanceFront ∧ c.distanceFront ≤ ENEMY_FAR)) :
    (c.distanceLeft < c.distanceRight → (updateEnemyStatus c).enemyDirection = -1) ∧
    (c.distanceRight ≤ c.distanceLeft → (updateEnemyStatus c).enemyDirection = 1) := by
  have e1 : decide (ENEMY_MIN ≤ c.distanceLeft ∧ c.distanceLeft ≤ ENEMY_FAR) = true :=
    decide_eq_true ⟨hlmin, hlmax⟩
  have e2 : decide (ENEMY_MIN ≤ c.distanceRight ∧ c.distanceRight ≤ ENEMY_FAR) = true :=
    decide_eq_true ⟨hrmin, hrmax⟩
  have e3 : decide (ENEMY_MIN ≤ c.distanceFront ∧ c.distanceFront ≤ ENEMY_FAR) = false :=
    decide_eq_false hf
  unfold updateEnemyStatus
  dsimp only
  rw [e1, e2, e3]
  constructor
  · intro h
    simp [h]
  · intro h
    simp [if_neg (not_lt.mpr h)]

/-- C9 witness: flanks at 40 cm and 60 cm with the front sensor out of
range resolve to the left (the nearer side). -/
theorem flank_tiebreak_nearer_witness :
    ((40:Int) < 60 →
      (updateEnemyStatus { mkCtx State.SEARCH 0 with
        distanceLeft := 40, distanceRight := 60 }).enemyDirection = -1) ∧
    ((60:Int) ≤ 40 →
      (updateEnemyStatus { mkCtx State.SEARCH 0 with
        distanceLeft := 40, distanceRight := 60 }).enemyDirection = 1) :=
  flank_tiebreak_nearer { mkCtx State.SEARCH 0 with distanceLeft := 40, distanceRight := 60 }
    (by decide) (by decide) (by decide) (by decide) (by decide)

/-- All four channel values of a drive command are within the configured
0..SPEED_MAX range. -/
def cmdBounded (m : MotorCmd) : Prop :=
  0 ≤ m.leftFwd ∧ m.leftFwd ≤ SPEED_MAX ∧
  0 ≤ m.leftBack ∧ m.leftBack ≤ SPEED_MAX ∧
  0 ≤ m.rightFwd ∧ m.rightFwd ≤ SPEED_MAX ∧
  0 ≤ m.rightBack ∧ m.rightBack ≤ SPEED_MAX

instance (m : MotorCmd) : Decidable (cmdBounded m) := by
  unfold cmdBounded
  infer_instance

lemma executeOpeningMove_cmds_bounded (c : Ctx) (now : Nat) :
    ∀ m ∈ (executeOpeningMove c now).2, cmdBounded m := by
  intro m hm
  unfold executeOpeningMove at hm
  dsimp only at hm
  split_ifs at hm <;> fin_cases hm <;> decide

lemma executeSearch_cmds_bounded (c : Ctx) (now : Nat) :
    ∀ m ∈ (executeSearch c now).2, cmdBounded m := by
  intro m hm
  unfold executeSearch at hm
  split_ifs at hm <;> fin_cases hm <;> decide

lemma executeAttack_cmds_bounded (c : Ctx) (now : Nat) :
    ∀ m ∈ (executeAttack c now).2, cmdBounded m := by
  intro m hm
  unfold executeAttack at hm
  split_ifs at hm <;> fin_cases hm <;> decide

lemma executePush_cmds_bounded (c : Ctx) (now : Nat) :
    ∀ m ∈ (executePush c now).2, cmdBounded m := by
  intro m hm
  unfold executePush at hm
  dsimp only at hm
  split_ifs at hm <;> fin_cases hm <;> decide

set_option maxRecDepth 4000 in
lemma executeBorderEscape_cmds_bounded (c : Ctx) (now : Nat) (inp : TickInput) :
    ∀ m ∈ (executeBorderEscape c now inp).2, cmdBounded m := by
  intro m hm
  unfold executeBorderEscape at hm
  dsimp only at hm
  split_ifs at hm <;> fin_cases hm <;> decide

lemma execState_cmds_bounded (c : Ctx) (inp : TickInput) :
    ∀ m ∈ (execState c inp).2, cmdBounded m := by
  unfold execState
  split
  · intro m hm
    simp at hm
  · exact executeOpeningMove_cmds_bounded _ _
  · exact executeSearch_cmds_bounded _ _
  · exact executeAttack_cmds_bounded _ _
  · exact executePush_cmds_bounded _ _
  · exact executeBorderEscape_cmds_bounded _ _ _

/-- C7 counterexample: `setMotors` performs no clamping — a requested left
speed of 300 is written through to the left-forward channel as 300, not
capped at the configured maximum 255. -/
theorem setMotors_no_clamp_counterexample :
    (setMotors 300 0).leftFwd = 300 ∧ ¬(setMotors 300 0).leftFwd ≤ SPEED_MAX := by
  decide

/-- C7 (amended): `setMotors` passes magnitudes through unclamped, but
every drive command the control loop actually issues uses the program's
constant speeds, so every channel value written during any tick lies in
the range 0..SPEED_MAX. -/
theorem tick_cmds_bounded (c : Ctx) (inp : TickInput) :
    ∀ m ∈ (loopStep c inp).2, cmdBounded m := by
  unfold loopStep
  exact execState_cmds_bounded _ _

/-- C7 witness: the search-rotation command emitted by an idle tick is
within bounds. -/
theorem tick_cmds_bounded_witness : cmdBounded (rotateClockwise SPEED_SEARCH) :=
  tick_cmds_bounded (mkCtx State.SEARCH 0) (mkInput 0 999)
    (rotateClockwise SPEED_SEARCH) (by decide)

lemma loopStep_no_border (c : Ctx) (inp : TickInput) (hnb : noBorder inp) :
    loopStep c inp =
      execState (updateEnemyStatus (storeUltra (readAllIRSensors c inp) inp)) inp := by
  unfold loopStep readUltrasonicSensors
  rw [borderPriority_of_clear _ _ (readAllIRSensors_borderDetected_false c inp hnb)]

lemma storeUltra_front_held (c : Ctx) (inp : TickInput) (d : Int)
    (hdf : c.distanceFront = d) (hread : readUltrasonic inp.ultraFront = d) :
    (storeUltra (readAllIRSensors c inp) inp).distanceFront = d := by
  rw [storeUltra_distanceFront]
  split_ifs
  · exact hread
  · simpa using hdf

/-- C4 (amended): with Push entered at `pushStartTime`, no border flag set
and the frontal reading held constant at a value between the minimum valid
distance and the lost threshold, a tick at most `deadlockWindow` after
entry stays in Push driving forward at full power (no reverse), recording
the distance; a tick beyond the window whose recorded last distance equals
the constant reading transitions to Attack after issuing the fixed
reverse-then-rotate recovery commands. -/
theorem push_deadlock_recovery (c : Ctx) (inp : TickInput) (d : Int)
    (hstate : c.currentState = State.PUSH)
    (hnb : noBorder inp)
    (hdf : c.distanceFront = d) (hread : readUltrasonic inp.ultraFront = d)
    (hmin : ENEMY_MIN ≤ d) (hmax : d ≤ ENEMY_LOST) :
    (inp.now - c.pushStartTime ≤ DEADLOCK_TIME →
       (loopStep c inp).1.currentState = State.PUSH ∧
       (loopStep c inp).1.lastEnemyDistance = d ∧
       (loopStep c inp).2 = [moveForward SPEED_PUSH]) ∧
    (DEADLOCK_TIME < inp.now - c.pushStartTime → c.lastEnemyDistance = d →
       (loopStep c inp).1.currentState = State.ATTACK ∧
       (loopStep c inp).2 = [moveBackward SPEED_MAX, rotateClockwise SPEED_MAX]) := by
  rw [loopStep_no_border c inp hnb]
  have hds := storeUltra_front_held c inp d hdf hread
  set cs : Ctx := storeUltra (readAllIRSensors c inp) inp with hcs
  set cu : Ctx := updateEnemyStatus cs with hcu
  have hd : cu.distanceFront = d := by rw [hcu, updateEnemyStatus_distanceFront]; exact hds
  have hst2 : cu.currentState = State.PUSH := by simp [hcu, hcs, hstate]
  have hpush : cu.pushStartTime = c.pushStartTime := by simp [hcu, hcs]
  have hlast : cu.lastEnemyDistance = c.lastEnemyDistance := by simp [hcu, hcs]
  have hed : cu.enemyDetected = true := by
    rw [hcu]
    refine updateEnemyStatus_detected_of_front cs ?_ ?_
    · rw [hds]; exact hmin
    · rw [hds]
      simp only [ENEMY_LOST] at hmax
      simp only [ENEMY_FAR]
      omega
  rw [execState_of_push cu inp hst2]
  constructor
  · intro hle
    have hnd : ¬(DEADLOCK_TIME < inp.now - cu.pushStartTime ∧
        (cu.distanceFront - cu.lastEnemyDistance).natAbs < 5) := by
      rw [hpush]
      rintro ⟨h1, _⟩
      omega
    have hne : ¬(cu.enemyDetected = false ∨ ENEMY_LOST < cu.distanceFront) := by
      rintro (h1 | h1)
      · simp [hed] at h1
      · rw [hd] at h1
        simp only [ENEMY_LOST] at h1 hmax
        omega
    unfold executePush
    rw [if_neg hnd]
    dsimp only
    rw [if_neg hne]
    exact ⟨hst2, hd, rfl⟩
  · intro hgt hl2
    have hdl : DEADLOCK_TIME < inp.now - cu.pushStartTime ∧
        (cu.distanceFront - cu.lastEnemyDistance).natAbs < 5 := by
      constructor
      · rw [hpush]; exact hgt
      · rw [hd, hlast, hl2]
        simp
    unfold executePush
    rw [if_pos hdl]
    exact ⟨rfl, rfl⟩

/-- C4 witness: Push entered at 10000 ms with the reading held at 40 cm; at
12500 ms (beyond the 2000 ms window, last distance recorded as 40) the tick
reverses, rotates and transitions to Attack. -/
theorem push_deadlock_recovery_witness :
    (loopStep { mkCtx State.PUSH 10000 with distanceFront := 40, lastEnemyDistance := 40 }
      (mkInput 12500 40)).1.currentState = State.ATTACK ∧
    (loopStep { mkCtx State.PUSH 10000 with distanceFront := 40, lastEnemyDistance := 40 }
      (mkInput 12500 40)).2 = [moveBackward SPEED_MAX, rotateClockwise SPEED_MAX] :=
  (push_deadlock_recovery
    { mkCtx State.PUSH 10000 with distanceFront := 40, lastEnemyDistance := 40 }
    (mkInput 12500 40) 40 rfl (by decide) rfl (by decide) (by decide) (by decide)).2
    (by decide) (by decide)

/-- C4 counterexample: with Push entered at 10000 ms and the frontal
reading held constant at 60 cm (no border flags), the controller leaves
Push for Search on the first tick and reaches Attack via Search at
10120 ms — before `pushStartTime + deadlockWindow` — with no drive command
(hence no reverse phase) issued at all, contradicting the claim that the
Attack transition happens at or after the deadlock window with a prior
reverse phase. -/
theorem push_early_attack_counterexample :
    (run (mkCtx State.PUSH 10000) [mkInput 10060 60, mkInput 10120 60]).currentState =
      State.ATTACK ∧
    runCmds (mkCtx State.PUSH 10000) [mkInput 10060 60, mkInput 10120 60] = [] ∧
    (mkInput 10120 60).now < (mkCtx State.PUSH 10000).pushStartTime + DEADLOCK_TIME := by
  decide

/-- C5 (amended): in Attack with no border flag, the frontal reading held
at `d` and the target not deemed lost: `d ≤ close` transitions to Push
recording the push-start time (but leaving `lastEnemyDistance` unchanged);
`close < d ≤ medium` stays in Attack driving the tighter closing pair;
`medium < d` stays in Attack driving the wide far-band pair. -/
theorem attack_threshold_transitions (c : Ctx) (inp : TickInput) (d : Int)
    (hstate : c.currentState = State.ATTACK)
    (hnb : noBorder inp)
    (hdf : c.distanceFront = d) (hread : readUltrasonic inp.ultraFront = d)
    (hmin : ENEMY_MIN ≤ d)
    (hgrace : ENEMY_LOST < d → inp.now - c.stateStartTime ≤ 1000) :
    (d ≤ ENEMY_CLOSE →
       (loopStep c inp).1.currentState = State.PUSH ∧
       (loopStep c inp).1.pushStartTime = inp.now ∧
       (loopStep c inp).1.stateStartTime = inp.now ∧
       (loopStep c inp).1.lastEnemyDistance = c.lastEnemyDistance) ∧
    (ENEMY_CLOSE < d → d ≤ ENEMY_MEDIUM →
       (loopStep c inp).1.currentState = State.ATTACK ∧
       (loopStep c inp).2 = [setMotors SPEED_CLOSE_INNER SPEED_CLOSE_OUTER]) ∧
    (ENEMY_MEDIUM < d →
       (loopStep c inp).1.currentState = State.ATTACK ∧
       (loopStep c inp).2 = [setMotors SPEED_ARC_INNER SPEED_ARC_OUTER]) := by
  rw [loopStep_no_border c inp hnb]
  have hds := storeUltra_front_held c inp d hdf hread
  set cs : Ctx := storeUltra (readAllIRSensors c inp) inp with hcs
  set cu : Ctx := updateEnemyStatus cs with hcu
  have hd : cu.distanceFront = d := by rw [hcu, updateEnemyStatus_distanceFront]; exact hds
  have hst2 : cu.currentState = State.ATTACK := by simp [hcu, hcs, hstate]
  have hss : cu.stateStartTime = c.stateStartTime := by simp [hcu, hcs]
  have hlast : cu.lastEnemyDistance = c.lastEnemyDistance := by simp [hcu, hcs]
  have hnl : ¬((cu.enemyDetected = false ∨ ENEMY_LOST < cu.distanceFront) ∧
      1000 < inp.now - cu.stateStartTime) := by
    by_cases hc : ENEMY_LOST < d
    · have hgl := hgrace hc
      rintro ⟨_, h2⟩
      rw [hss] at h2
      omega
    · have hed : cu.enemyDetected = true := by
        rw [hcu]
        refine updateEnemyStatus_detected_of_front cs ?_ ?_
        · rw [hds]; exact hmin
        · rw [hds]
          simp only [ENEMY_LOST, not_lt] at hc
          simp only [ENEMY_FAR]
          omega
      rintro ⟨h1 | h1, _⟩
      · simp [hed] at h1
      · rw [hd] at h1
        exact hc h1
  rw [execState_of_attack cu inp hst2]
  unfold executeAttack
  rw [if_neg hnl]
  refine ⟨?_, ?_, ?_⟩
  · intro hclose
    rw [if_pos (by rw [hd]; exact hclose)]
    exact ⟨rfl, rfl, rfl, hlast⟩
  · intro h1 h2
    rw [if_neg (by rw [hd]; simp only [ENEMY_CLOSE] at h1 ⊢; omega)]
    rw [if_neg (by rw [hd]; simp only [ENEMY_MEDIUM] at h2 ⊢; omega)]
    exact ⟨hst2, rfl⟩
  · intro h1
    rw [if_neg (by rw [hd]; simp only [ENEMY_MEDIUM] at h1; simp only [ENEMY_CLOSE]; omega)]
    rw [if_pos (by rw [hd]; exact h1)]
    exact ⟨hst2, rfl⟩

/-- C5 witness: Attack at 25 cm transitions to Push, records the push-start
time 10100, and leaves `lastEnemyDistance` at its previous value 999. -/
theorem attack_threshold_transitions_witness :
    (loopStep { mkCtx State.ATTACK 10000 with distanceFront := 25 }
      (mkInput 10100 25)).1.currentState = State.PUSH ∧
    (loopStep { mkCtx State.ATTACK 10000 with distanceFront := 25 }
      (mkInput 10100 25)).1.pushStartTime = 10100 ∧
    (loopStep { mkCtx State.ATTACK 10000 with distanceFront := 25 }
      (mkInput 10100 25)).1.stateStartTime = 10100 ∧
    (loopStep { mkCtx State.ATTACK 10000 with distanceFront := 25 }
      (mkInput 10100 25)).1.lastEnemyDistance =
      ({ mkCtx State.ATTACK 10000 with distanceFront := 25 } : Ctx).lastEnemyDistance :=
  (attack_threshold_transitions { mkCtx State.ATTACK 10000 with distanceFront := 25 }
    (mkInput 10100 25) 25 rfl (by decide) rfl (by decide) (by decide)
    (fun h => absurd h (by decide))).1 (by decide)

/-- C5 counterexample: the transition to Push records the push-start time
but not the last-observed distance — with a 25 cm reading the stored
`lastEnemyDistance` stays 999 instead of being set to 25, contradicting
the claim that both are recorded. -/
theorem attack_push_no_record_counterexample :
    (loopStep { mkCtx State.ATTACK 10000 with distanceFront := 25 }
      (mkInput 10100 25)).1.currentState = State.PUSH ∧
    (loopStep { mkCtx State.ATTACK 10000 with distanceFront := 25 }
      (mkInput 10100 25)).1.pushStartTime = 10100 ∧
    (loopStep { mkCtx State.ATTACK 10000 with distanceFront := 25 }
      (mkInput 10100 25)).1.lastEnemyDistance = 999 ∧
    ¬((999:Int) = 25) := by
  decide

/-- C6 (amended): in Attack with the frontal reading held beyond the lost
threshold (and no border flag), the transition to Search fires exactly when
more than 1000 ms have elapsed since the Attack state was entered — not
since the target was lost; with at most 1000 ms since entry the state stays
Attack even though the target is lost. -/
theorem attack_lost_grace_from_entry (c : Ctx) (inp : TickInput) (d : Int)
    (hstate : c.currentState = State.ATTACK)
    (hnb : noBorder inp)
    (hdf : c.distanceFront = d) (hread : readUltrasonic inp.ultraFront = d)
    (hlost : ENEMY_LOST < d) :
    (1000 < inp.now - c.stateStartTime →
       (loopStep c inp).1.currentState = State.SEARCH ∧
       (loopStep c inp).1.stateStartTime = inp.now) ∧
    (inp.now - c.stateStartTime ≤ 1000 →
       (loopStep c inp).1.currentState = State.ATTACK) := by
  rw [loopStep_no_border c inp hnb]
  have hds := storeUltra_front_held c inp d hdf hread
  set cs : Ctx := storeUltra (readAllIRSensors c inp) inp with hcs
  set cu : Ctx := updateEnemyStatus cs with hcu
  have hd : cu.distanceFront = d := by rw [hcu, updateEnemyStatus_distanceFront]; exact hds
  have hst2 : cu.currentState = State.ATTACK := by simp [hcu, hcs, hstate]
  have hss : cu.stateStartTime = c.stateStartTime := by simp [hcu, hcs]
  rw [execState_of_attack cu inp hst2]
  unfold executeAttack
  constructor
  · intro hgt
    rw [if_pos ⟨Or.inr (by rw [hd]; exact hlost), by rw [hss]; exact hgt⟩]
    exact ⟨rfl, rfl⟩
  · intro hle
    rw [if_neg (by rintro ⟨_, h2⟩; rw [hss] at h2; omega)]
    rw [if_neg (by rw [hd]; simp only [ENEMY_LOST] at hlost; simp only [ENEMY_CLOSE]; omega)]
    split_ifs <;> exact hst2

/-- C6 witness: the reading held at 60 cm (lost) with 1500 ms since Attack
entry sends the state to Search. -/
theorem attack_lost_grace_from_entry_witness :
    (loopStep { mkCtx State.ATTACK 10000 with distanceFront := 60 }
      (mkInput 11500 60)).1.currentState = State.SEARCH ∧
    (loopStep { mkCtx State.ATTACK 10000 with distanceFront := 60 }
      (mkInput 11500 60)).1.stateStartTime = 11500 :=
  (attack_lost_grace_from_entry { mkCtx State.ATTACK 10000 with distanceFront := 60 }
    (mkInput 11500 60) 60 rfl (by decide) rfl (by decide) (by decide)).1 (by decide)

/-- C6 counterexample: the target is present on the tick at 11400 ms and
lost only from the tick at 11500 ms — a loss lasting 100 ms, far below the
1000 ms grace period — yet the state transitions to Search, because the
code measures the grace period from Attack entry (10000 ms), not from the
moment the target was lost. -/
theorem attack_brief_loss_counterexample :
    (run (mkCtx State.ATTACK 10000) [mkInput 11400 40]).currentState = State.ATTACK ∧
    (run (mkCtx State.ATTACK 10000)
      [mkInput 11400 40, mkInput 11500 60]).currentState = State.SEARCH ∧
    (mkInput 11500 60).now - (mkInput 11400 40).now ≤ 1000 := by
  decide

end SumoBot
